import Mathlib

/-!
Verification of the YouTube DeFi monitor's core logic: the adaptive
virality classifier (`src/monitor/virality_checker.py`), the claim
post-filter (`src/factcheck/claim_extractor.py`), and the fact
verifier with its numeric extractors (`src/factcheck/verifier.py`).

Python floats are modelled as exact rationals (`ℚ`); machine rounding is
irrelevant at the values examined here.  External adapters (DefiLlama,
CoinGecko) and the generative collaborator are modelled as oracle
functions, universally quantified in the theorems.
-/

deriving instance DecidableEq for Except

namespace Monitor

/-- `ViralityThreshold` from `src/config.py`: `max_subs: Optional[int]`,
`ratio: float`. -/
structure ViralityThreshold where
  max_subs : Option Int
  ratio : ℚ
deriving Repr, DecidableEq

/-- `ViralityThresholds` from `src/config.py`. -/
structure ViralityThresholds where
  small : ViralityThreshold
  medium : ViralityThreshold
  large : ViralityThreshold
deriving Repr, DecidableEq

/-- `ViralityResult` dataclass from `src/monitor/virality_checker.py`. -/
structure ViralityResult where
  is_viral : Bool
  score : ℚ
  threshold_used : ℚ
  channel_category : String
  views : Int
  subscribers : Int
deriving Repr, DecidableEq

/-- Round-half-to-even to an integer, the semantics of Python's builtin
`round` on an exact value. -/
def roundHalfEven (x : ℚ) : Int :=
  let f : Int := Int.floor x
  let frac : ℚ := x - f
  if frac < 1/2 then f
  else if 1/2 < frac then f + 1
  else if f % 2 = 0 then f else f + 1

/-- Python `round(x, 3)`. -/
def pyRound3 (x : ℚ) : ℚ := (roundHalfEven (x * 1000) : ℚ) / 1000

/-- `ViralityChecker.get_channel_category`.  Comparing an `int` against a
`None` bound would raise `TypeError` in Python, modelled as `Except.error`. -/
def get_channel_category (t : ViralityThresholds) (subscribers : Int) :
    Except Unit String :=
  match t.small.max_subs with
  | none => .error ()
  | some sm =>
    if subscribers ≤ sm then .ok "small"
    else
      match t.medium.max_subs with
      | none => .error ()
      | some md =>
        if subscribers ≤ md then .ok "medium" else .ok "large"

/-- `ViralityChecker.get_threshold_ratio`. -/
def get_threshold_ratio (t : ViralityThresholds) (category : String) : ℚ :=
  if category = "small" then t.small.ratio
  else if category = "medium" then t.medium.ratio
  else t.large.ratio

/-- `ViralityChecker.check_virality`: guard on `subscribers <= 0`, then
category, threshold, unrounded score comparison, rounded score in the
result. -/
def check_virality (t : ViralityThresholds) (views subscribers : Int) :
    Except Unit ViralityResult :=
  if subscribers ≤ 0 then
    .ok { is_viral := false, score := 0, threshold_used := 0,
          channel_category := "unknown", views := views,
          subscribers := subscribers }
  else
    match get_channel_category t subscribers with
    | .error e => .error e
    | .ok category =>
      let threshold_ratio := get_threshold_ratio t category
      let score : ℚ := (views : ℚ) / (subscribers : ℚ)
      let is_viral : Bool := threshold_ratio ≤ score
      .ok { is_viral := is_viral, score := pyRound3 score,
            threshold_used := threshold_ratio, channel_category := category,
            views := views, subscribers := subscribers }

/-- The default thresholds documented on `ViralityChecker`: small (≤ 5K subs)
ratio 1.5, medium (≤ 50K subs) ratio 1.0, large ratio 0.3. -/
def defaultThresholds : ViralityThresholds :=
  { small := { max_subs := some 5000, ratio := 3/2 }
    medium := { max_subs := some 50000, ratio := 1 }
    large := { max_subs := none, ratio := 3/10 } }

end Monitor

namespace Verifier

/-!
Model of `FactVerifier._extract_number` and `FactVerifier._extract_percentage`
(`src/factcheck/verifier.py`).  The Python code lowercases the text, strips
commas and spaces, and runs `re.search` with the patterns
`\$?([\d.]+)\s*(?:billion|млрд)`, `\$?([\d.]+)\s*(?:million|млн|m)`,
`\$?([\d.]+)\s*(?:thousand|тыс|k)`, `\$?([\d.]+)` in that order, converting
group 1 with `float` and multiplying; a `ValueError` moves on to the next
pattern.  Because the character class `[\d.]` is disjoint from whitespace
and from the first characters of every unit literal, greedy matching with
backtracking is equivalent to: maximal `[\d.]` run, maximal whitespace run,
then the unit literal, and `re.search` returns the leftmost starting
position; the model below implements exactly that.  Lowercasing is modelled
for ASCII (`Char.toLower`), digits as ASCII digits.
-/

/-- Characters matched by the regex class `[\d.]`. -/
def numChar (c : Char) : Bool := c.isDigit || c == '.'

/-- ASCII whitespace matched by `\s`. -/
def wsChar (c : Char) : Bool :=
  c == ' ' || c == '\t' || c == '\n' || c == '\r' || c == '\x0b' || c == '\x0c'

/-- `text.lower().replace(",", "").replace(" ", "")` on the character list. -/
def cleanText (s : String) : List Char :=
  (s.data.map Char.toLower).filter (fun c => !(c == ',') && !(c == ' '))

/-- `u` is a leading sequence of `l` (regex literal match at the position). -/
def listStartsWith : List Char → List Char → Bool
  | [], _ => true
  | _ :: _, [] => false
  | u :: us, c :: cs => u == c && listStartsWith us cs

/-- `u` occurs contiguously somewhere in `l`. -/
def containsSeq (u : List Char) : List Char → Bool
  | [] => listStartsWith u []
  | c :: cs => listStartsWith u (c :: cs) || containsSeq u cs

/-- Match `([\d.]+)\s*(?:unit₁|unit₂|…)` at the head of `l`, returning
group 1; `units = []` encodes the bare pattern `([\d.]+)`. -/
def matchNumAt (units : List (List Char)) (l : List Char) : Option (List Char) :=
  let run := l.takeWhile numChar
  if run.isEmpty then none
  else if units.isEmpty then some run
  else
    let rest := (l.dropWhile numChar).dropWhile wsChar
    if units.any (fun u => listStartsWith u rest) then some run else none

/-- Match `\$?([\d.]+)\s*(?:…)` at the head of `l`: an optional leading
`$` is consumed (backtracking to the empty alternative can never succeed
because `$` is not in `[\d.]`). -/
def matchPatAt (units : List (List Char)) (l : List Char) : Option (List Char) :=
  match l with
  | [] => none
  | c :: rest => if c = '$' then matchNumAt units rest else matchNumAt units (c :: rest)

/-- `re.search` for the dollar-prefixed numeric patterns: leftmost
starting position wins. -/
def searchPat (units : List (List Char)) : List Char → Option (List Char)
  | [] => none
  | c :: cs =>
    match matchPatAt units (c :: cs) with
    | some g => some g
    | none => searchPat units cs

/-- `re.search` for the percentage patterns (no `\$?` prefix). -/
def searchNumUnit (units : List (List Char)) : List Char → Option (List Char)
  | [] => none
  | c :: cs =>
    match matchNumAt units (c :: cs) with
    | some g => some g
    | none => searchNumUnit units cs

/-- Decimal value of a digit list. -/
def digitsVal (l : List Char) : Nat := l.foldl (fun n c => 10 * n + (c.toNat - 48)) 0

/-- Python `float` on a `[\d.]+` group, represented exactly as
(mantissa, number of fractional digits); `ValueError` (more than one dot,
or no digit at all) is `none`. -/
def parseFloatRep (l : List Char) : Option (Nat × Nat) :=
  if l.count '.' ≤ 1 && l.any Char.isDigit then
    let ip := l.takeWhile (fun c => !(c == '.'))
    let fp := (l.dropWhile (fun c => !(c == '.'))).drop 1
    some (digitsVal (ip ++ fp), fp.length)
  else none

/-- The rational value of a parsed float representation. -/
def ratOfRep (r : Nat × Nat) : ℚ := (r.1 : ℚ) / (10 : ℚ) ^ r.2

def billionUnits : List (List Char) := ["billion".data, "млрд".data]
def millionUnits : List (List Char) := ["million".data, "млн".data, "m".data]
def thousandUnits : List (List Char) := ["thousand".data, "тыс".data, "k".data]

/-- The pattern list of `_extract_number` with its multipliers, in source
order: billion 1e9, million 1e6, thousand 1e3, then the bare fallback. -/
def numberPatterns : List (List (List Char) × ℚ) :=
  [(billionUnits, 1000000000), (millionUnits, 1000000),
   (thousandUnits, 1000), ([], 1)]

/-- The `for pattern, multiplier in patterns` loop of `_extract_number`:
first pattern whose search hits and whose group parses wins. -/
def extractNumGo : List (List (List Char) × ℚ) → List Char → Option ℚ
  | [], _ => none
  | (units, mult) :: ps, cleaned =>
    match searchPat units cleaned with
    | some g =>
      match parseFloatRep g with
      | some r => some (ratOfRep r * mult)
      | none => extractNumGo ps cleaned
    | none => extractNumGo ps cleaned

/-- `FactVerifier._extract_number`. -/
def extract_number (text : String) : Option ℚ :=
  extractNumGo numberPatterns (cleanText text)

/-- The patterns of `_extract_percentage`: `([\d.]+)\s*%`,
`([\d.]+)\s*процент`, `([\d.]+)\s*percent`, in source order. -/
def percentPatterns : List (List (List Char)) :=
  [["%".data], ["процент".data], ["percent".data]]

/-- The pattern loop of `_extract_percentage` (no multiplier). -/
def extractPctGo : List (List (List Char)) → List Char → Option ℚ
  | [], _ => none
  | units :: ps, lowered =>
    match searchNumUnit units lowered with
    | some g =>
      match parseFloatRep g with
      | some r => some (ratOfRep r)
      | none => extractPctGo ps lowered
    | none => extractPctGo ps lowered

/-- `FactVerifier._extract_percentage`: runs on `text.lower()` (commas and
spaces are kept here, unlike `_extract_number`). -/
def extract_percentage (text : String) : Option ℚ :=
  extractPctGo percentPatterns (text.data.map Char.toLower)

/-- `FactStatus` from `src/database/models.py`: verified, outdated,
false, unverified (`false` is a Lean keyword, hence `falseStatus`). -/
inductive FactStatus where
  | verified
  | outdated
  | falseStatus
  | unverified
deriving Repr, DecidableEq

/-- `ExtractedClaim` dataclass from `src/factcheck/claim_extractor.py`. -/
structure ExtractedClaim where
  claim : String
  category : String
  entities : List String
  original_text : String
  confidence : ℚ
deriving Repr, DecidableEq

/-- `FactData` from `src/factcheck/sources.py`, restricted to the fields
the verifier reads (`value`); `unit`, `timestamp` and `raw_data` are never
consulted by the comparison logic. -/
structure FactData where
  source : String
  query : String
  value : ℚ
deriving Repr, DecidableEq

/-- A yield-pool dictionary as consumed by `_verify_yield_claim`:
`pool.get("apy", 0)` defaults to 0 when the key is absent (`apy = none`). -/
structure Pool where
  apy : Option ℚ
  pool_name : Option String
deriving Repr, DecidableEq

/-- `pool.get("apy", 0)`. -/
def Pool.getApy (p : Pool) : ℚ := p.apy.getD 0

/-- The external data sources as oracles: each field is one adapter method
used by `FactVerifier` (network behaviour universally quantified). -/
structure Adapters where
  get_protocol_tvl : String → Option FactData
  get_token_price : String → Option FactData
  get_yields : String → List Pool
  defillama_query : String → Option FactData
  coingecko_query : String → Option FactData

/-- `VerificationResult` dataclass from `src/factcheck/verifier.py`.
`verified_value`/`original_value` hold the numeric payloads that the
Python code renders with f-strings; `notes` keeps the static text of each
note (interpolated numeric suffixes elided). -/
structure VerificationResult where
  claim : ExtractedClaim
  status : FactStatus
  source : Option String := none
  verified_value : Option ℚ := none
  original_value : Option ℚ := none
  notes : Option String := none
deriving Repr, DecidableEq

/-- Python truthiness of an `Optional[float]`: `None` and `0.0` are falsy. -/
def pyTruthy : Option ℚ → Bool
  | none => false
  | some x => x != 0

/-- The `if data:` body of `_verify_tvl_claim`: compare the extracted
number against `data.value` within the ±20% band, or fall back to the
existence confirmation when no (nonzero) number was extracted. -/
def tvl_data_branch (c : ExtractedClaim) (data : FactData) : VerificationResult :=
  let claimed_value := extract_number c.claim
  let actual_value := data.value
  if pyTruthy claimed_value then
    let ratio := actual_value / claimed_value.getD 0
    if 0.8 ≤ ratio ∧ ratio ≤ 1.2 then
      { claim := c, status := .verified, source := some "defillama",
        verified_value := some actual_value,
        original_value := some (claimed_value.getD 0) }
    else
      { claim := c, status := .outdated, source := some "defillama",
        verified_value := some actual_value,
        original_value := some (claimed_value.getD 0),
        notes := some "Actual TVL differs" }
  else
    { claim := c, status := .verified, source := some "defillama",
      verified_value := some actual_value,
      notes := some "Protocol exists, TVL confirmed" }

/-- The `for entity in claim.entities` loop of `_verify_tvl_claim`. -/
def verify_tvl_go (a : Adapters) (c : ExtractedClaim) : List String → VerificationResult
  | [] => { claim := c, status := .unverified,
            notes := some "Could not find protocol data" }
  | entity :: rest =>
    match a.get_protocol_tvl entity with
    | some data => tvl_data_branch c data
    | none => verify_tvl_go a c rest

/-- The `if data:` body of `_verify_price_claim`: ±10% band; the
existence fall-back here sets no note (unlike the TVL one). -/
def price_data_branch (c : ExtractedClaim) (data : FactData) : VerificationResult :=
  let claimed_price := extract_number c.claim
  let actual_price := data.value
  if pyTruthy claimed_price then
    let ratio := actual_price / claimed_price.getD 0
    if 0.9 ≤ ratio ∧ ratio ≤ 1.1 then
      { claim := c, status := .verified, source := some "coingecko",
        verified_value := some actual_price,
        original_value := some (claimed_price.getD 0) }
    else
      { claim := c, status := .outdated, source := some "coingecko",
        verified_value := some actual_price,
        original_value := some (claimed_price.getD 0),
        notes := some "Price changed" }
  else
    { claim := c, status := .verified, source := some "coingecko",
      verified_value := some actual_price }

/-- The `for entity in claim.entities` loop of `_verify_price_claim`. -/
def verify_price_go (a : Adapters) (c : ExtractedClaim) : List String → VerificationResult
  | [] => { claim := c, status := .unverified,
            notes := some "Could not find token price" }
  | entity :: rest =>
    match a.get_token_price entity with
    | some data => price_data_branch c data
    | none => verify_price_go a c rest

/-- The `for pool in pools[:10]` loop of `_verify_yield_claim`: returns
the verified result for the first pool whose apy is within ±30% of the
claimed apy, `none` when no pool matches. -/
def yield_pool_loop (c : ExtractedClaim) (claimed_apy : Option ℚ) :
    List Pool → Option VerificationResult
  | [] => none
  | pool :: ps =>
    let pool_apy := pool.getApy
    if pool_apy ≠ 0 ∧ pyTruthy claimed_apy = true then
      let ratio := pool_apy / claimed_apy.getD 0
      if 0.7 ≤ ratio ∧ ratio ≤ 1.3 then
        some { claim := c, status := .verified, source := some "defillama",
               verified_value := some pool_apy,
               original_value := some (claimed_apy.getD 0),
               notes := some "Pool" }
      else yield_pool_loop c claimed_apy ps
    else yield_pool_loop c claimed_apy ps

/-- The `for entity in claim.entities` loop of `_verify_yield_claim`:
when a pool list is non-empty but neither the pool loop nor the
average-apy fall-back returns (no extractable percentage), the loop moves
on to the next entity and ultimately returns unverified. -/
def verify_yield_go (a : Adapters) (c : ExtractedClaim) : List String → VerificationResult
  | [] => { claim := c, status := .unverified,
            notes := some "Could not verify yield data" }
  | entity :: rest =>
    let pools := a.get_yields entity
    if pools.isEmpty then verify_yield_go a c rest
    else
      let claimed_apy := extract_percentage c.claim
      match yield_pool_loop c claimed_apy (pools.take 10) with
      | some r => r
      | none =>
        if !pools.isEmpty && pyTruthy claimed_apy then
          let avg := ((pools.take 5).map Pool.getApy).sum /
            ((min 5 pools.length : Nat) : ℚ)
          { claim := c, status := .outdated, source := some "defillama",
            verified_value := some avg,
            original_value := some (claimed_apy.getD 0),
            notes := some "APY may have changed" }
        else verify_yield_go a c rest

/-- The `for entity in claim.entities` loop of `_verify_general_claim`:
DefiLlama then CoinGecko generic lookup per entity. -/
def verify_general_go (a : Adapters) (c : ExtractedClaim) : List String → VerificationResult
  | [] => { claim := c, status := .unverified,
            notes := some "No matching data found" }
  | entity :: rest =>
    match a.defillama_query entity with
    | some data =>
      { claim := c, status := .verified, source := some "defillama",
        verified_value := some data.value, notes := some "Entity found" }
    | none =>
      match a.coingecko_query entity with
      | some data =>
        { claim := c, status := .verified, source := some "coingecko",
          verified_value := some data.value, notes := some "Token found" }
      | none => verify_general_go a c rest

/-- `FactVerifier.verify_single_claim`: route by claim category. -/
def verify_single_claim (a : Adapters) (c : ExtractedClaim) : VerificationResult :=
  if c.category = "tvl" then verify_tvl_go a c c.entities
  else if c.category = "price" then verify_price_go a c c.entities
  else if c.category = "percentage" then verify_yield_go a c c.entities
  else verify_general_go a c c.entities

end Verifier

namespace Extractor

/-- One item of the parsed collaborator JSON array, as read by
`ClaimExtractor.extract_claims`: the five `item.get(...)` results, with
`confidence = none` modelling a `float()` coercion failure (`ValueError`,
dropped with a warning). -/
structure ClaimItem where
  claim : String
  category : String
  entities : List String
  original_text : String
  confidence : Option ℚ
deriving Repr, DecidableEq

/-- The `ExtractedClaim(...)` construction inside the loop: fails (is
dropped) exactly when the confidence coercion fails. -/
def itemToClaim (it : ClaimItem) : Option Verifier.ExtractedClaim :=
  match it.confidence with
  | none => none
  | some conf =>
    some { claim := it.claim, category := it.category, entities := it.entities,
           original_text := it.original_text, confidence := conf }

/-- The survival test `if claim.claim and claim.confidence >= 0.5`. -/
def claimFilter (c : Verifier.ExtractedClaim) : Bool :=
  !(c.claim == "") && decide ((1 : ℚ)/2 ≤ c.confidence)

/-- The post-processing of `ClaimExtractor.extract_claims` on the parsed
response: the loop runs over `claims_data[:max_claims]` — truncation
happens BEFORE the filter — keeping coercible items that pass the filter,
in order. -/
def extract_claims_post (claims_data : List ClaimItem) (max_claims : Nat) :
    List Verifier.ExtractedClaim :=
  ((claims_data.take max_claims).filterMap itemToClaim).filter claimFilter

end Extractor

namespace Verifier

/-- Adapter stub for the TVL examples: DefiLlama knows protocol "Aave"
with the given TVL, every other lookup misses. -/
def aaveTvlAdapters (v : ℚ) : Adapters :=
  { get_protocol_tvl := fun s =>
      if s = "Aave" then some { source := "defillama", query := "Aave", value := v }
      else none
    get_token_price := fun _ => none
    get_yields := fun _ => []
    defillama_query := fun _ => none
    coingecko_query := fun _ => none }

/-- The TVL example claim: "Aave TVL is $10 billion". -/
def aaveTvlClaim : ExtractedClaim :=
  { claim := "Aave TVL is $10 billion", category := "tvl", entities := ["Aave"],
    original_text := "", confidence := 1 }

/-- A TVL claim with no extractable number. -/
def aaveNoNumberClaim : ExtractedClaim :=
  { claim := "Aave is a protocol", category := "tvl", entities := ["Aave"],
    original_text := "", confidence := 1 }

/-- A TVL claim whose only number is zero. -/
def aaveZeroClaim : ExtractedClaim :=
  { claim := "$0", category := "tvl", entities := ["Aave"],
    original_text := "", confidence := 1 }

/-- A yield (percentage) claim with no extractable percentage. -/
def yieldNoNumberClaim : ExtractedClaim :=
  { claim := "no numbers here", category := "percentage", entities := ["aave"],
    original_text := "", confidence := 1 }

/-- Adapter stub for the yield counterexample: the yields listing for
"aave" is non-empty (the entity exists), everything else misses. -/
def yieldAdapters : Adapters :=
  { get_protocol_tvl := fun _ => none
    get_token_price := fun _ => none
    get_yields := fun s =>
      if s = "aave" then [{ apy := some 5, pool_name := some "aave-pool" }] else []
    defillama_query := fun _ => none
    coingecko_query := fun _ => none }

end Verifier

namespace Extractor

/-- A response item failing the confidence filter (0.1 < 0.5). -/
def lowConfItem : ClaimItem :=
  { claim := "Aave TVL is $10 billion", category := "tvl", entities := ["Aave"],
    original_text := "", confidence := some (1/10) }

/-- A response item passing the confidence filter. -/
def highConfItem : ClaimItem :=
  { claim := "ETH is $2000", category := "price", entities := ["ETH"],
    original_text := "", confidence := some (9/10) }

/-- The coerced claim of `lowConfItem`. -/
def lowConfClaim : Verifier.ExtractedClaim :=
  { claim := "Aave TVL is $10 billion", category := "tvl", entities := ["Aave"],
    original_text := "", confidence := 1/10 }

/-- The coerced claim of `highConfItem`. -/
def highConfClaim : Verifier.ExtractedClaim :=
  { claim := "ETH is $2000", category := "price", entities := ["ETH"],
    original_text := "", confidence := 9/10 }

end Extractor

namespace Monitor

/-- C1: for subscribers > 0 (with both consulted breakpoints configured),
`check_virality` returns a result whose score is `views/subscribers`
rounded to 3 decimals, whose category is the one selected for the
subscriber count, and whose `is_viral` is true iff the unrounded ratio is
at least the threshold ratio of that category.  The function is a pure
Lean function, hence deterministic and side-effect free. -/
theorem check_virality_spec (t : ViralityThresholds) (v s sm md : Int)
    (hs : 0 < s) (h1 : t.small.max_subs = some sm)
    (h2 : t.medium.max_subs = some md) :
    ∃ r : ViralityResult, check_virality t v s = .ok r ∧
      r.score = pyRound3 ((v : ℚ) / (s : ℚ)) ∧
      get_channel_category t s = .ok r.channel_category ∧
      (r.is_viral = true ↔ get_threshold_ratio t r.channel_category ≤ (v : ℚ) / (s : ℚ)) := by
  have hns : ¬ s ≤ 0 := not_le.mpr hs
  unfold check_virality
  simp only [hns, if_false]
  unfold get_channel_category
  rw [h1, h2]
  by_cases hsm : s ≤ sm
  · simp [hsm, decide_eq_true_iff]
  · by_cases hmd : s ≤ md
    · simp [hsm, hmd, decide_eq_true_iff]
    · simp [hsm, hmd, decide_eq_true_iff]

/-- Witness for C1 at the default thresholds, views 100, subscribers 10. -/
theorem check_virality_spec_witness :
    ∃ r : ViralityResult, check_virality defaultThresholds 100 10 = .ok r ∧
      r.score = pyRound3 ((100 : ℚ) / (10 : ℚ)) ∧
      get_channel_category defaultThresholds 10 = .ok r.channel_category ∧
      (r.is_viral = true ↔
        get_threshold_ratio defaultThresholds r.channel_category ≤ (100 : ℚ) / (10 : ℚ)) :=
  check_virality_spec defaultThresholds 100 10 5000 50000
    (by decide) (by decide) (by decide)

/-- C7: for subscribers ≤ 0 the guard branch returns (no exception) a
result with `is_viral = false`, score 0 and category "unknown". -/
theorem check_virality_nonpositive_subs (t : ViralityThresholds)
    (v s : Int) (hs : s ≤ 0) :
    check_virality t v s =
      .ok { is_viral := false, score := 0, threshold_used := 0,
            channel_category := "unknown", views := v, subscribers := s } := by
  unfold check_virality
  simp [hs]

/-- Witness for C7 at views 1000000, subscribers 0. -/
theorem check_virality_nonpositive_subs_witness :
    check_virality defaultThresholds 1000000 0 =
      .ok { is_viral := false, score := 0, threshold_used := 0,
            channel_category := "unknown", views := 1000000, subscribers := 0 } :=
  check_virality_nonpositive_subs defaultThresholds 1000000 0 (by decide)

/-- C8: with `small.max_subs < medium.max_subs`, exactly `small.max_subs`
subscribers is "small", one more is "medium"; exactly `medium.max_subs` is
"medium", one more is "large". -/
theorem category_boundaries (t : ViralityThresholds) (sm md : Int)
    (h1 : t.small.max_subs = some sm) (h2 : t.medium.max_subs = some md)
    (hlt : sm < md) :
    get_channel_category t sm = .ok "small" ∧
    get_channel_category t (sm + 1) = .ok "medium" ∧
    get_channel_category t md = .ok "medium" ∧
    get_channel_category t (md + 1) = .ok "large" := by
  unfold get_channel_category
  rw [h1, h2]
  refine ⟨by simp, ?_, ?_, ?_⟩
  · have h1' : ¬ sm + 1 ≤ sm := by omega
    have h2' : sm + 1 ≤ md := by omega
    simp [h1', h2']
  · have h1' : ¬ md ≤ sm := by omega
    simp [h1']
  · have h1' : ¬ md + 1 ≤ sm := by omega
    have h2' : ¬ md + 1 ≤ md := by omega
    simp [h1', h2']

/-- Witness for C8 at the default breakpoints 5000 < 50000. -/
theorem category_boundaries_witness :
    get_channel_category defaultThresholds 5000 = .ok "small" ∧
    get_channel_category defaultThresholds 5001 = .ok "medium" ∧
    get_channel_category defaultThresholds 50000 = .ok "medium" ∧
    get_channel_category defaultThresholds 50001 = .ok "large" :=
  category_boundaries defaultThresholds 5000 50000 (by decide) (by decide) (by decide)

/-- C9: `check_virality` compares the unrounded ratio against the
threshold but reports the rounded ratio, so at views 7498 and
subscribers 5000 (small channel, threshold 1.5) the unrounded ratio
1.4996 is below the threshold, yet the returned score rounds up to 1.5:
the result is not viral although its score equals its threshold. -/
theorem check_virality_rounding_crosses_threshold :
    ∃ r : ViralityResult,
      check_virality defaultThresholds 7498 5000 = .ok r ∧
      r.is_viral = false ∧ r.threshold_used ≤ r.score := by
  refine ⟨{ is_viral := false, score := 3/2, threshold_used := 3/2,
            channel_category := "small", views := 7498,
            subscribers := 5000 }, ?_, rfl, le_refl _⟩
  unfold check_virality get_channel_category get_threshold_ratio pyRound3
    roundHalfEven defaultThresholds
  norm_num [Int.floor_eq_iff]

end Monitor

namespace Verifier

/-- Characters of a group returned by `matchNumAt` come from the text. -/
theorem matchNumAt_mem (units : List (List Char)) (l g : List Char)
    (h : matchNumAt units l = some g) : ∀ c ∈ g, c ∈ l := by
  have hsub := (List.takeWhile_sublist (l := l) numChar).subset
  simp only [matchNumAt] at h
  split_ifs at h <;> cases h <;> exact fun c hc => hsub hc

/-- Characters of a group returned by `matchPatAt` come from the text. -/
theorem matchPatAt_mem (units : List (List Char)) (l g : List Char)
    (h : matchPatAt units l = some g) : ∀ c ∈ g, c ∈ l := by
  cases l with
  | nil => simp [matchPatAt] at h
  | cons c cs =>
    simp only [matchPatAt] at h
    split_ifs at h with hc
    · exact fun x hx => List.mem_cons_of_mem c (matchNumAt_mem units cs g h x hx)
    · exact matchNumAt_mem units (c :: cs) g h

/-- Characters of a group returned by `searchPat` come from the text. -/
theorem searchPat_mem (units : List (List Char)) (l : List Char) :
    ∀ g, searchPat units l = some g → ∀ c ∈ g, c ∈ l := by
  induction l with
  | nil => intro g h; simp [searchPat] at h
  | cons c cs ih =>
    intro g h
    simp only [searchPat] at h
    cases hm : matchPatAt units (c :: cs) with
    | some g' =>
      rw [hm] at h
      cases h
      exact matchPatAt_mem units (c :: cs) _ hm
    | none =>
      rw [hm] at h
      exact fun x hx => List.mem_cons_of_mem c (ih g h x hx)

/-- A group with no digit fails Python `float` conversion. -/
theorem parseFloatRep_eq_none (g : List Char) (h : g.any Char.isDigit = false) :
    parseFloatRep g = none := by
  simp [parseFloatRep, h]

/-- When the cleaned text has no digit, every pattern of the
`_extract_number` loop fails (its group, if any, is all dots). -/
theorem extractNumGo_eq_none (l : List Char) (hl : ∀ c ∈ l, c.isDigit = false) :
    ∀ ps, extractNumGo ps l = none := by
  intro ps
  induction ps with
  | nil => rfl
  | cons p ps ih =>
    obtain ⟨units, mult⟩ := p
    simp only [extractNumGo]
    cases hs : searchPat units l with
    | none => simpa using ih
    | some g =>
      have hg : g.any Char.isDigit = false := by
        rw [List.any_eq_false]
        intro x hx
        simp [hl x (searchPat_mem units l g hs x hx)]
      have hp : parseFloatRep g = none := parseFloatRep_eq_none g hg
      simp [hp, ih]

/-- A literal match inside a suffix is an occurrence in the whole list. -/
theorem containsSeq_append (u t s : List Char)
    (h : listStartsWith u s = true) : containsSeq u (t ++ s) = true := by
  induction t with
  | nil =>
    cases s with
    | nil => simpa [containsSeq] using h
    | cons c cs => simp [containsSeq, h]
  | cons c t ih => simp [containsSeq, ih]

theorem containsSeq_of_suffix (u s l : List Char) (hs : s <:+ l)
    (h : listStartsWith u s = true) : containsSeq u l = true := by
  obtain ⟨t, rfl⟩ := hs
  exact containsSeq_append u t s h

/-- A successful unit-pattern match exhibits one of its unit literals in
the text. -/
theorem matchNumAt_unit (units : List (List Char)) (l g : List Char)
    (hne : units ≠ []) (h : matchNumAt units l = some g) :
    ∃ u ∈ units, containsSeq u l = true := by
  cases units with
  | nil => exact absurd rfl hne
  | cons u0 us =>
    simp only [matchNumAt, List.isEmpty_cons, Bool.false_eq_true, if_false] at h
    split_ifs at h with h1 h3
    obtain ⟨u, hu, hsw⟩ := List.any_eq_true.mp h3
    have hsuf : (l.dropWhile numChar).dropWhile wsChar <:+ l :=
      (List.dropWhile_suffix wsChar).trans (List.dropWhile_suffix numChar)
    exact ⟨u, hu, containsSeq_of_suffix u _ l hsuf hsw⟩

theorem matchPatAt_unit (units : List (List Char)) (l g : List Char)
    (hne : units ≠ []) (h : matchPatAt units l = some g) :
    ∃ u ∈ units, containsSeq u l = true := by
  cases l with
  | nil => simp [matchPatAt] at h
  | cons c cs =>
    simp only [matchPatAt] at h
    split_ifs at h with hc
    · obtain ⟨u, hu, hcs⟩ := matchNumAt_unit units cs g hne h
      exact ⟨u, hu, by simp [containsSeq, hcs]⟩
    · exact matchNumAt_unit units (c :: cs) g hne h

theorem searchPat_unit (units : List (List Char)) (hne : units ≠ []) (l : List Char) :
    ∀ g, searchPat units l = some g → ∃ u ∈ units, containsSeq u l = true := by
  induction l with
  | nil => intro g h; simp [searchPat] at h
  | cons c cs ih =>
    intro g h
    simp only [searchPat] at h
    cases hm : matchPatAt units (c :: cs) with
    | some g' =>
      rw [hm] at h
      exact matchPatAt_unit units (c :: cs) g' hne hm
    | none =>
      rw [hm] at h
      obtain ⟨u, hu, hcs⟩ := ih g h
      exact ⟨u, hu, by simp [containsSeq, hcs]⟩

/-- A unit pattern whose unit literals occur nowhere in the text cannot
match. -/
theorem searchPat_eq_none (units : List (List Char)) (l : List Char) (hne : units ≠ [])
    (h : ∀ u ∈ units, containsSeq u l = false) : searchPat units l = none := by
  cases hs : searchPat units l with
  | none => rfl
  | some g =>
    obtain ⟨u, hu, hc⟩ := searchPat_unit units hne l g hs
    rw [h u hu] at hc
    cases hc

end Verifier

namespace Verifier

/-- C5: magnitude extraction tries the billion, million and thousand
multiplier patterns in source order before the bare-number fallback and
the first matching (and float-parseable) pattern wins — witnessed by the
last conjunct: a billion-pattern hit decides the result with multiplier
1e9.  A multiplier is applied only when the matched number is followed by
a unit word: when no unit literal occurs in the cleaned text at all, the
result is exactly that of the bare pattern with multiplier 1 (fifth
conjunct).  On text with no digit, extraction returns `none` (the absence
marker) instead of raising (fourth conjunct).  Concretely,
`"$1.5 million"` gives 1500000, `"$1,500,000"` gives 1500000, and
`"no numbers here"` gives `none`. -/
theorem extract_number_spec :
    extract_number "$1.5 million" = some 1500000 ∧
    extract_number "$1,500,000" = some 1500000 ∧
    extract_number "no numbers here" = none ∧
    (∀ text : String, (∀ c ∈ cleanText text, c.isDigit = false) →
      extract_number text = none) ∧
    (∀ text : String,
      (∀ u ∈ billionUnits, containsSeq u (cleanText text) = false) →
      (∀ u ∈ millionUnits, containsSeq u (cleanText text) = false) →
      (∀ u ∈ thousandUnits, containsSeq u (cleanText text) = false) →
      extract_number text = extractNumGo [([], 1)] (cleanText text)) ∧
    (∀ (text : String) (g : List Char) (r : Nat × Nat),
      searchPat billionUnits (cleanText text) = some g →
      parseFloatRep g = some r →
      extract_number text = some (ratOfRep r * 1000000000)) := by
  refine ⟨?_, ?_, ?_, ?_, ?_, ?_⟩
  · have h1 : searchPat billionUnits (cleanText "$1.5 million") = none := by decide
    have h2 : searchPat millionUnits (cleanText "$1.5 million") =
        some ['1', '.', '5'] := by decide
    have h3 : parseFloatRep ['1', '.', '5'] = some (15, 1) := by decide
    simp only [extract_number, numberPatterns, extractNumGo, h1, h2, h3, ratOfRep]
    norm_num
  · have h1 : searchPat billionUnits (cleanText "$1,500,000") = none := by decide
    have h2 : searchPat millionUnits (cleanText "$1,500,000") = none := by decide
    have h3 : searchPat thousandUnits (cleanText "$1,500,000") = none := by decide
    have h4 : searchPat [] (cleanText "$1,500,000") =
        some ['1', '5', '0', '0', '0', '0', '0'] := by decide
    have h5 : parseFloatRep ['1', '5', '0', '0', '0', '0', '0'] =
        some (1500000, 0) := by decide
    simp only [extract_number, numberPatterns, extractNumGo, h1, h2, h3, h4, h5,
      ratOfRep]
    norm_num
  · exact extractNumGo_eq_none _ (by decide) _
  · intro text h
    exact extractNumGo_eq_none _ h _
  · intro text hb hm ht
    have h1 : searchPat billionUnits (cleanText text) = none :=
      searchPat_eq_none _ _ (by decide) hb
    have h2 : searchPat millionUnits (cleanText text) = none :=
      searchPat_eq_none _ _ (by decide) hm
    have h3 : searchPat thousandUnits (cleanText text) = none :=
      searchPat_eq_none _ _ (by decide) ht
    show extractNumGo numberPatterns (cleanText text) = _
    simp only [numberPatterns, extractNumGo, h1, h2, h3]
  · intro text g r hs hp
    show extractNumGo numberPatterns (cleanText text) = _
    simp only [numberPatterns, extractNumGo, hs, hp]

/-- Witness for C5's conditional conjuncts at concrete inputs. -/
theorem extract_number_spec_witness :
    extract_number "abc" = none ∧
    extract_number "day 7 event" = extractNumGo [([], 1)] (cleanText "day 7 event") ∧
    extract_number "tvl $2 billion" = some (ratOfRep (2, 0) * 1000000000) :=
  ⟨extract_number_spec.2.2.2.1 "abc" (by decide),
   extract_number_spec.2.2.2.2.1 "day 7 event" (by decide) (by decide) (by decide),
   extract_number_spec.2.2.2.2.2 "tvl $2 billion" ['2'] (2, 0) (by decide) (by decide)⟩

end Verifier

namespace Verifier

/-- Every result of the TVL entity loop is verified, outdated or
unverified. -/
theorem verify_tvl_go_status (a : Adapters) (c : ExtractedClaim) (ents : List String) :
    (verify_tvl_go a c ents).status = FactStatus.verified ∨
    (verify_tvl_go a c ents).status = FactStatus.outdated ∨
    (verify_tvl_go a c ents).status = FactStatus.unverified := by
  induction ents with
  | nil => simp [verify_tvl_go]
  | cons e rest ih =>
    simp only [verify_tvl_go]
    cases hd : a.get_protocol_tvl e with
    | none => simpa using ih
    | some d =>
      simp only [tvl_data_branch]
      split_ifs <;> simp

/-- Every result of the price entity loop is verified, outdated or
unverified. -/
theorem verify_price_go_status (a : Adapters) (c : ExtractedClaim) (ents : List String) :
    (verify_price_go a c ents).status = FactStatus.verified ∨
    (verify_price_go a c ents).status = FactStatus.outdated ∨
    (verify_price_go a c ents).status = FactStatus.unverified := by
  induction ents with
  | nil => simp [verify_price_go]
  | cons e rest ih =>
    simp only [verify_price_go]
    cases hd : a.get_token_price e with
    | none => simpa using ih
    | some d =>
      simp only [price_data_branch]
      split_ifs <;> simp

/-- A pool-loop hit is always a verified result. -/
theorem yield_pool_loop_status (c : ExtractedClaim) (ca : Option ℚ)
    (ps : List Pool) (r : VerificationResult)
    (h : yield_pool_loop c ca ps = some r) : r.status = FactStatus.verified := by
  induction ps with
  | nil => simp [yield_pool_loop] at h
  | cons p ps ih =>
    simp only [yield_pool_loop] at h
    split_ifs at h
    · cases h; rfl
    · exact ih h
    · exact ih h

/-- Every result of the yield entity loop is verified, outdated or
unverified. -/
theorem verify_yield_go_status (a : Adapters) (c : ExtractedClaim) (ents : List String) :
    (verify_yield_go a c ents).status = FactStatus.verified ∨
    (verify_yield_go a c ents).status = FactStatus.outdated ∨
    (verify_yield_go a c ents).status = FactStatus.unverified := by
  induction ents with
  | nil => simp [verify_yield_go]
  | cons e rest ih =>
    simp only [verify_yield_go]
    by_cases h1 : (a.get_yields e).isEmpty = true
    · simpa [h1] using ih
    · cases hl : yield_pool_loop c (extract_percentage c.claim)
          ((a.get_yields e).take 10) with
      | some r =>
        have hr := yield_pool_loop_status _ _ _ r hl
        simp [h1, hl, hr]
      | none =>
        by_cases h2 : pyTruthy (extract_percentage c.claim) = true
        · simp [h1, hl, h2]
        · simpa [h1, hl, h2] using ih

/-- Every result of the generic fallback loop is verified or unverified. -/
theorem verify_general_go_status (a : Adapters) (c : ExtractedClaim) (ents : List String) :
    (verify_general_go a c ents).status = FactStatus.verified ∨
    (verify_general_go a c ents).status = FactStatus.outdated ∨
    (verify_general_go a c ents).status = FactStatus.unverified := by
  induction ents with
  | nil => simp [verify_general_go]
  | cons e rest ih =>
    simp only [verify_general_go]
    cases a.defillama_query e with
    | some d => simp
    | none =>
      cases a.coingecko_query e with
      | some d => simp
      | none => simpa using ih

/-- C6: for every claim and every behaviour of the adapters, the status
assigned by `verify_single_claim` is verified, outdated or unverified —
the `falseStatus` member of `FactStatus` is never assigned by any path of
the comparison logic. -/
theorem verify_single_claim_status (a : Adapters) (c : ExtractedClaim) :
    (verify_single_claim a c).status = FactStatus.verified ∨
    (verify_single_claim a c).status = FactStatus.outdated ∨
    (verify_single_claim a c).status = FactStatus.unverified := by
  unfold verify_single_claim
  split_ifs
  · exact verify_tvl_go_status a c c.entities
  · exact verify_price_go_status a c c.entities
  · exact verify_yield_go_status a c c.entities
  · exact verify_general_go_status a c c.entities

end Verifier

namespace Verifier

/-- The TVL entity loop lands in the `if data:` branch of the first
entity for which DefiLlama returns data. -/
theorem verify_tvl_go_eq_branch (a : Adapters) (c : ExtractedClaim)
    (ents : List String) (e : String) (d : FactData)
    (hfind : ents.find? (fun x => (a.get_protocol_tvl x).isSome) = some e)
    (hdata : a.get_protocol_tvl e = some d) :
    verify_tvl_go a c ents = tvl_data_branch c d := by
  induction ents with
  | nil => simp [List.find?] at hfind
  | cons x rest ih =>
    cases hx : a.get_protocol_tvl x with
    | some dx =>
      rw [List.find?_cons_of_pos rest (by simp [hx])] at hfind
      injection hfind with hxe
      subst hxe
      rw [hx] at hdata
      injection hdata with hdd
      subst hdd
      simp [verify_tvl_go, hx]
    | none =>
      rw [List.find?_cons_of_neg rest (by simp [hx])] at hfind
      simp only [verify_tvl_go, hx]
      exact ih hfind

/-- The price entity loop lands in the `if data:` branch of the first
entity for which CoinGecko returns data. -/
theorem verify_price_go_eq_branch (a : Adapters) (c : ExtractedClaim)
    (ents : List String) (e : String) (d : FactData)
    (hfind : ents.find? (fun x => (a.get_token_price x).isSome) = some e)
    (hdata : a.get_token_price e = some d) :
    verify_price_go a c ents = price_data_branch c d := by
  induction ents with
  | nil => simp [List.find?] at hfind
  | cons x rest ih =>
    cases hx : a.get_token_price x with
    | some dx =>
      rw [List.find?_cons_of_pos rest (by simp [hx])] at hfind
      injection hfind with hxe
      subst hxe
      rw [hx] at hdata
      injection hdata with hdd
      subst hdd
      simp [verify_price_go, hx]
    | none =>
      rw [List.find?_cons_of_neg rest (by simp [hx])] at hfind
      simp only [verify_price_go, hx]
      exact ih hfind

/-- C2: for a tvl-category claim whose first data-yielding entity gives
observed value `d.value` and whose text yields the (nonzero) claimed
number `cv`, the status is verified exactly when the ratio
observed/claimed lies in [0.8, 1.2] and outdated otherwise. -/
theorem tvl_tolerance_band (a : Adapters) (c : ExtractedClaim) (e : String)
    (d : FactData) (cv : ℚ)
    (hcat : c.category = "tvl")
    (hfind : c.entities.find? (fun x => (a.get_protocol_tvl x).isSome) = some e)
    (hdata : a.get_protocol_tvl e = some d)
    (hnum : extract_number c.claim = some cv) (hcv : cv ≠ 0) :
    (verify_single_claim a c).status =
      (if 0.8 ≤ d.value / cv ∧ d.value / cv ≤ 1.2
       then FactStatus.verified else FactStatus.outdated) := by
  unfold verify_single_claim
  rw [if_pos hcat, verify_tvl_go_eq_branch a c c.entities e d hfind hdata]
  have ht : pyTruthy (some cv) = true := by simp [pyTruthy, hcv]
  simp only [tvl_data_branch, hnum, Option.getD_some]
  rw [if_pos ht]
  split_ifs <;> rfl

/-- Witness for C2: claimed $10 billion against observed $11 billion
(ratio 1.1) is verified; against observed $6 billion (ratio 0.6) it is
outdated. -/
theorem tvl_tolerance_band_witness :
    (verify_single_claim (aaveTvlAdapters 11000000000) aaveTvlClaim).status =
      FactStatus.verified ∧
    (verify_single_claim (aaveTvlAdapters 6000000000) aaveTvlClaim).status =
      FactStatus.outdated := by
  have hnum : extract_number aaveTvlClaim.claim = some 10000000000 := by
    have hs : searchPat billionUnits (cleanText "Aave TVL is $10 billion") =
        some ['1', '0'] := by decide
    have hp : parseFloatRep ['1', '0'] = some (10, 0) := by decide
    show extract_number "Aave TVL is $10 billion" = _
    simp only [extract_number, numberPatterns, extractNumGo, hs, hp, ratOfRep]
    norm_num
  constructor
  · have h := tvl_tolerance_band (aaveTvlAdapters 11000000000) aaveTvlClaim "Aave"
      { source := "defillama", query := "Aave", value := 11000000000 } 10000000000
      rfl (by decide) (by simp [aaveTvlAdapters]) hnum (by norm_num)
    rw [h]
    norm_num
  · have h := tvl_tolerance_band (aaveTvlAdapters 6000000000) aaveTvlClaim "Aave"
      { source := "defillama", query := "Aave", value := 6000000000 } 10000000000
      rfl (by decide) (by simp [aaveTvlAdapters]) hnum (by norm_num)
    rw [h]
    norm_num

end Verifier

namespace Verifier

/-- C4 counterexample: a percentage-category claim whose entity's yields
listing is non-empty (the entity is confirmed to exist) but whose text
has no extractable number comes back *unverified*, not verified — the
yield path has no existence fall-back. -/
theorem yield_existence_unverified :
    yieldAdapters.get_yields "aave" ≠ [] ∧
    extract_percentage yieldNoNumberClaim.claim = none ∧
    (verify_single_claim yieldAdapters yieldNoNumberClaim).status =
      FactStatus.unverified := by
  have hpct : extract_percentage "no numbers here" = none := by decide
  refine ⟨by simp [yieldAdapters], hpct, ?_⟩
  simp [verify_single_claim, yieldNoNumberClaim, verify_yield_go, yieldAdapters,
    yield_pool_loop, hpct, pyTruthy, Pool.getApy]

/-- C4 amended: a claim with no extractable number whose first
data-yielding entity is confirmed by the relevant adapter is marked
verified for the tvl category (with an explanatory note) and for the
price category (without a note); the percentage (yield) category instead
returns unverified in this situation (see the counterexample). -/
theorem existence_confirms_claim (a : Adapters) (c : ExtractedClaim)
    (e : String) (d : FactData)
    (hnum : extract_number c.claim = none) :
    (c.category = "tvl" →
      c.entities.find? (fun x => (a.get_protocol_tvl x).isSome) = some e →
      a.get_protocol_tvl e = some d →
      verify_single_claim a c =
        { claim := c, status := FactStatus.verified, source := some "defillama",
          verified_value := some d.value,
          notes := some "Protocol exists, TVL confirmed" }) ∧
    (c.category = "price" →
      c.entities.find? (fun x => (a.get_token_price x).isSome) = some e →
      a.get_token_price e = some d →
      verify_single_claim a c =
        { claim := c, status := FactStatus.verified, source := some "coingecko",
          verified_value := some d.value }) := by
  constructor
  · intro hcat hfind hdata
    unfold verify_single_claim
    rw [if_pos hcat, verify_tvl_go_eq_branch a c c.entities e d hfind hdata]
    simp [tvl_data_branch, hnum, pyTruthy]
  · intro hcat hfind hdata
    unfold verify_single_claim
    have hnt : ¬ (c.category = "tvl") := by simp [hcat]
    rw [if_neg hnt, if_pos hcat,
      verify_price_go_eq_branch a c c.entities e d hfind hdata]
    simp [price_data_branch, hnum, pyTruthy]

/-- Witness for C4's amended theorem: a numberless tvl claim about an
existing protocol is verified with the existence note. -/
theorem existence_confirms_claim_witness :
    verify_single_claim (aaveTvlAdapters 11000000000) aaveNoNumberClaim =
      { claim := aaveNoNumberClaim, status := FactStatus.verified,
        source := some "defillama", verified_value := some 11000000000,
        notes := some "Protocol exists, TVL confirmed" } :=
  (existence_confirms_claim (aaveTvlAdapters 11000000000) aaveNoNumberClaim
      "Aave" { source := "defillama", query := "Aave", value := 11000000000 }
      (by decide)).1 rfl (by decide) (by simp [aaveTvlAdapters])

/-- C10: when the number extracted from the claim text is exactly 0,
TVL and price verification treat it like an absent number: the
comparison branch (and with it the division observed/claimed) is never
reached, and the claim is classified by the entity-existence branch. -/
theorem zero_claim_value_uses_existence (a : Adapters) (c : ExtractedClaim)
    (e : String) (d : FactData)
    (hnum : extract_number c.claim = some 0) :
    (c.category = "tvl" →
      c.entities.find? (fun x => (a.get_protocol_tvl x).isSome) = some e →
      a.get_protocol_tvl e = some d →
      verify_single_claim a c =
        { claim := c, status := FactStatus.verified, source := some "defillama",
          verified_value := some d.value,
          notes := some "Protocol exists, TVL confirmed" }) ∧
    (c.category = "price" →
      c.entities.find? (fun x => (a.get_token_price x).isSome) = some e →
      a.get_token_price e = some d →
      verify_single_claim a c =
        { claim := c, status := FactStatus.verified, source := some "coingecko",
          verified_value := some d.value }) := by
  constructor
  · intro hcat hfind hdata
    unfold verify_single_claim
    rw [if_pos hcat, verify_tvl_go_eq_branch a c c.entities e d hfind hdata]
    simp [tvl_data_branch, hnum, pyTruthy]
  · intro hcat hfind hdata
    unfold verify_single_claim
    have hnt : ¬ (c.category = "tvl") := by simp [hcat]
    rw [if_neg hnt, if_pos hcat,
      verify_price_go_eq_branch a c c.entities e d hfind hdata]
    simp [price_data_branch, hnum, pyTruthy]

/-- Witness for C10: the claim text "$0" extracts to 0 and the tvl
verification lands in the existence branch. -/
theorem zero_claim_value_uses_existence_witness :
    verify_single_claim (aaveTvlAdapters 11000000000) aaveZeroClaim =
      { claim := aaveZeroClaim, status := FactStatus.verified,
        source := some "defillama", verified_value := some 11000000000,
        notes := some "Protocol exists, TVL confirmed" } := by
  have hnum : extract_number aaveZeroClaim.claim = some 0 := by
    have h1 : searchPat billionUnits (cleanText "$0") = none := by decide
    have h2 : searchPat millionUnits (cleanText "$0") = none := by decide
    have h3 : searchPat thousandUnits (cleanText "$0") = none := by decide
    have h4 : searchPat [] (cleanText "$0") = some ['0'] := by decide
    have h5 : parseFloatRep ['0'] = some (0, 0) := by decide
    show extract_number "$0" = _
    simp only [extract_number, numberPatterns, extractNumGo, h1, h2, h3, h4, h5,
      ratOfRep]
    norm_num
  exact (zero_claim_value_uses_existence (aaveTvlAdapters 11000000000)
      aaveZeroClaim "Aave"
      { source := "defillama", query := "Aave", value := 11000000000 }
      hnum).1 rfl (by decide) (by simp [aaveTvlAdapters])

end Verifier

namespace Extractor

/-- When every item of a list coerces and passes the filter, filtering
after coercion keeps them all. -/
theorem filter_filterMap_all_length (L : List ClaimItem)
    (h : ∀ it ∈ L, ∃ c, itemToClaim it = some c ∧ claimFilter c = true) :
    ((L.filterMap itemToClaim).filter claimFilter).length = L.length := by
  induction L with
  | nil => rfl
  | cons it L ih =>
    obtain ⟨c, hc, hf⟩ := h it (List.mem_cons_self it L)
    have ihl := ih (fun x hx => h x (List.mem_cons_of_mem it hx))
    simp [List.filterMap_cons, hc, List.filter_cons, hf, ihl]

/-- C3 counterexample: with `max_claims = 1` and a collaborator response
whose first item fails the confidence filter while its second passes,
the response contains (at least) one filter-surviving item, yet the
extractor returns no claims at all: the code truncates to `max_claims`
*before* filtering, not after. -/
theorem extract_claims_truncation_before_filter :
    1 ≤ ((([lowConfItem, highConfItem]).filterMap itemToClaim).filter claimFilter).length ∧
    extract_claims_post [lowConfItem, highConfItem] 1 = [] := by
  have h1 : itemToClaim lowConfItem = some lowConfClaim := rfl
  have h2 : itemToClaim highConfItem = some highConfClaim := rfl
  have hlow : claimFilter lowConfClaim = false := by
    have hp : ¬ ((2 : ℚ)⁻¹ ≤ lowConfClaim.confidence) := by norm_num [lowConfClaim]
    simp [claimFilter, hp]
  have hhigh : claimFilter highConfClaim = true := by
    have hp : (2 : ℚ)⁻¹ ≤ highConfClaim.confidence := by norm_num [highConfClaim]
    have hs : (highConfClaim.claim == "") = false := by decide
    simp [claimFilter, hp, hs]
  constructor
  · simp [List.filterMap_cons, h1, h2, List.filter_cons, hlow, hhigh]
  · simp [extract_claims_post, List.filterMap_cons, h1, List.filter_cons, hlow]

/-- C3 amended: the extractor truncates the collaborator response to
`max_claims` items first and filters afterwards, preserving order: the
output never exceeds `max_claims` claims and is an order-preserving
sublist of the fully filtered response; and whenever the *first*
`max_claims` items of the response all coerce and satisfy the filter,
exactly `max_claims` claims are returned. -/
theorem extract_claims_post_spec (claims_data : List ClaimItem) (m : Nat) :
    (extract_claims_post claims_data m).length ≤ m ∧
    (extract_claims_post claims_data m).Sublist
      ((claims_data.filterMap itemToClaim).filter claimFilter) ∧
    (m ≤ claims_data.length →
      (∀ it ∈ claims_data.take m,
        ∃ c, itemToClaim it = some c ∧ claimFilter c = true) →
      (extract_claims_post claims_data m).length = m) := by
  refine ⟨?_, ?_, ?_⟩
  · calc (extract_claims_post claims_data m).length
        ≤ ((claims_data.take m).filterMap itemToClaim).length :=
          List.length_filter_le _ _
      _ ≤ (claims_data.take m).length := List.length_filterMap_le _ _
      _ ≤ m := List.length_take_le m claims_data
  · exact ((claims_data.take_sublist m).filterMap itemToClaim).filter claimFilter
  · intro hlen hall
    rw [extract_claims_post, filter_filterMap_all_length _ hall, List.length_take]
    omega

/-- Witness for C3's amended theorem: a response whose first item passes
the filter returns exactly one claim at `max_claims = 1`. -/
theorem extract_claims_post_spec_witness :
    (extract_claims_post [highConfItem, lowConfItem] 1).length = 1 := by
  refine (extract_claims_post_spec [highConfItem, lowConfItem] 1).2.2 (by simp) ?_
  intro it hit
  simp only [List.take_succ_cons, List.take_zero, List.mem_singleton] at hit
  subst hit
  refine ⟨highConfClaim, rfl, ?_⟩
  have hp : (2 : ℚ)⁻¹ ≤ highConfClaim.confidence := by norm_num [highConfClaim]
  have hs : (highConfClaim.claim == "") = false := by decide
  simp [claimFilter, hp, hs]

end Extractor
